import Mathlib

/-!
Shallow embedding of `pkg/agent/ssh/server.go` (package `ssh`): the session
dispatcher in `Server.Start`, the interactive handler `handlePty`, and the
non-interactive handler `handleNonPty`.

Host-OS calls (`os.Environ`, `os.Stat`, `ssh.NewAgentListener`, pty start,
`cmd.StdinPipe`, `cmd.Start`, `cmd.Wait`, the `io.Copy` into the stdin pipe)
are modelled by an oracle `Host` fixing each call's outcome for one handler
invocation; the handlers are then pure functions of the server configuration,
the host oracle and the session's request data.
-/

/-- An environment entry `(name, value)`, embedding the Go string
`name=value` built by `fmt.Sprintf("%s=%s", name, value)`. -/
abbrev EnvVar := String × String

/-- Last-assignment-wins lookup: the value of the last entry with the given
name, the semantics the exec consumer applies to a `cmd.Env` list in which a
name may occur more than once. -/
def lastLookup (env : List EnvVar) (name : String) : Option String :=
  match env with
  | [] => none
  | e :: rest =>
    match lastLookup rest name with
    | some v => some v
    | none => if e.1 = name then some e.2 else none

/-- The `Server` struct: the configured workspace directory and the fallback
default workspace directory. -/
structure Server where
  WorkspaceDir : String
  DefaultWorkspaceDir : String

/-- Host-OS oracle: the outcome of every host call a handler makes, fixed for
one handler invocation.
* `environ` — `os.Environ()`, as (name, value) entries;
* `getShell` — `common.GetShell()`;
* `dirExists p` — true when `os.Stat p` does NOT report `IsNotExist`;
* `agentListener` — `ssh.NewAgentListener()`: `some addr` on success
  (`l.Addr().String() = addr`), `none` on error;
* `ptyStartOk` — `Start(cmd)` (pty allocation + spawn) succeeds;
* `stdinPipeOk` — `cmd.StdinPipe()` succeeds;
* `startOk` — `cmd.Start()` succeeds;
* `waitErr` — `cmd.Wait()` returns a non-nil error;
* `stdinCopyErr` — `io.Copy(stdinPipe, session)` returns a non-nil error. -/
structure Host where
  environ : List EnvVar
  getShell : String
  dirExists : String → Bool
  agentListener : Option String
  ptyStartOk : Bool
  stdinPipeOk : Bool
  startOk : Bool
  waitErr : Bool
  stdinCopyErr : Bool

/-- Per-session request data read from the `ssh.Session`:
`Subsystem()`, `RawCommand()`, `Command()` (the parsed form of the raw
command), the pty-requested flag and terminal type from `Pty()`, and
`ssh.AgentRequested(session)`. -/
structure Session where
  subsystem : String
  rawCommand : String
  command : List String
  isPty : Bool
  ptyTerm : String
  agentRequested : Bool

/-- A spawned process as configured on the `exec.Cmd` at the moment it is
started: program, argument vector, working directory, environment. -/
structure Spawn where
  prog : String
  args : List String
  dir : String
  env : List EnvVar
  deriving DecidableEq, Repr

/-- Working-directory resolution, verbatim in both handlers:
`cmd.Dir = s.WorkspaceDir` and then, when `os.Stat(s.WorkspaceDir)` reports
`IsNotExist`, `cmd.Dir = s.DefaultWorkspaceDir`. -/
def resolveDir (h : Host) (s : Server) : String :=
  if h.dirExists s.WorkspaceDir then s.WorkspaceDir else s.DefaultWorkspaceDir

/-- The agent-forwarding block, identical in both handlers:
`if ssh.AgentRequested(session) { l, err := ssh.NewAgentListener(); if err != nil
{ log; return } ...; cmd.Env = append(cmd.Env, "SSH_AUTH_SOCK=" + l.Addr()) }`.
Returns `none` when the handler returns early (listener creation failed), and
otherwise the list of environment entries this block appends. -/
def agentEnvOf (agentRequested : Bool) (agentListener : Option String) :
    Option (List EnvVar) :=
  if agentRequested then
    match agentListener with
    | none => none
    | some addr => some [("SSH_AUTH_SOCK", addr)]
  else some []

/-- Result of `handlePty`: `spawned` is the process as handed to `Start(cmd)`
when the handler reaches the spawn and the pty start succeeds; `none` when the
handler returned early (agent-listener failure) or the pty start failed.
`handlePty` never calls `session.Exit`. -/
structure PtyResult where
  spawned : Option Spawn
  deriving DecidableEq, Repr

/-- `handlePty`: resolve the shell via `common.GetShell()`, resolve the working
directory, run the agent-forwarding block, append `TERM=<ptyReq.Term>`, then
`os.Environ()`, then `SHELL=<shell>` to `cmd.Env`, and start the command on a
pty. -/
def handlePty (s : Server) (h : Host) (sess : Session) : PtyResult :=
  let shell := h.getShell
  let dir := resolveDir h s
  match agentEnvOf sess.agentRequested h.agentListener with
  | none => { spawned := none }
  | some ae =>
    let env := ae ++ [("TERM", sess.ptyTerm)] ++ h.environ ++ [("SHELL", shell)]
    if h.ptyStartOk then
      { spawned := some { prog := shell, args := [], dir := dir, env := env } }
    else
      { spawned := none }

/-- The body of the stdin-copy goroutine in `handleNonPty`:
`_, err := io.Copy(stdinPipe, session); if err != nil { log; return };
_ = stdinPipe.Close()`. Returns whether the pipe gets closed when the copy
ends, as a function of whether the copy returned an error. -/
def stdinCopyClosesPipe (copyErr : Bool) : Bool :=
  if copyErr then false else true

/-- Result of `handleNonPty`: the process as configured when `cmd.Start()` is
reached and succeeds (`none` when the handler returned before or at the start),
and the argument of the `session.Exit` call, if one is made. -/
structure NonPtyResult where
  spawned : Option Spawn
  exitStatus : Option Nat
  deriving DecidableEq, Repr

/-- `handleNonPty`: build `args` (`["-c", RawCommand]` when `Command()` is
non-empty, else `[]`), `cmd := exec.Command("sh", args...)`, append
`os.Environ()` to `cmd.Env`, run the agent-forwarding block, resolve the
working directory, obtain the stdin pipe, start the command, and wait;
`session.Exit 127` when the wait errs, `session.Exit 0` when it succeeds.
Stdin-pipe failure, start failure and agent-listener failure each make the
handler return with no spawn and no exit call. -/
def handleNonPty (s : Server) (h : Host) (sess : Session) : NonPtyResult :=
  let args : List String :=
    if sess.command.length > 0 then ["-c", sess.rawCommand] else []
  match agentEnvOf sess.agentRequested h.agentListener with
  | none => { spawned := none, exitStatus := none }
  | some ae =>
    let env := h.environ ++ ae
    let dir := resolveDir h s
    if h.stdinPipeOk then
      if h.startOk then
        let sp : Spawn := { prog := "sh", args := args, dir := dir, env := env }
        if h.waitErr then
          { spawned := some sp, exitStatus := some 127 }
        else
          { spawned := some sp, exitStatus := some 0 }
      else
        { spawned := none, exitStatus := none }
    else
      { spawned := none, exitStatus := none }

/-- The routes the session handler in `Server.Start` can take. `rejected`
means the `default` arm of the subsystem switch ran: `session.Exit(1)` and
return, with neither process handler nor the sftp handler invoked. -/
inductive Route where
  | sftp
  | pty
  | nonPty
  | rejected
  deriving DecidableEq, Repr

/-- The session handler in `Server.Start`: switch on `session.Subsystem()` —
`""` falls through, `"sftp"` goes to the sftp handler, anything else exits
with status 1 — then `if session.RawCommand() == "" && isPty` choose
`handlePty`, else `handleNonPty`. Returns the route and the exit status the
dispatcher itself reports (only the `rejected` arm reports one). -/
def dispatch (sess : Session) : Route × Option Nat :=
  if sess.subsystem = "" then
    if sess.rawCommand = "" ∧ sess.isPty then (Route.pty, none)
    else (Route.nonPty, none)
  else if sess.subsystem = "sftp" then (Route.sftp, none)
  else (Route.rejected, some 1)

/-! Concrete sample data used by witnesses and counterexamples. -/

def sampleServer : Server := { WorkspaceDir := "/workspace", DefaultWorkspaceDir := "/home" }

def sampleHost : Host :=
  { environ := [("PATH", "/bin")]
    getShell := "/bin/bash"
    dirExists := fun _ => true
    agentListener := some "/tmp/agent.sock"
    ptyStartOk := true
    stdinPipeOk := true
    startOk := true
    waitErr := false
    stdinCopyErr := false }

def sampleSession : Session :=
  { subsystem := ""
    rawCommand := "ls"
    command := ["ls"]
    isPty := false
    ptyTerm := "xterm"
    agentRequested := false }

/-- Sample host where `ssh.NewAgentListener()` fails. -/
def agentFailHost : Host := { sampleHost with agentListener := none }

/-- Sample host where `cmd.Start()` fails. -/
def startFailHost : Host := { sampleHost with startOk := false }

/-- Sample session that requested agent forwarding. -/
def agentSession : Session := { sampleSession with agentRequested := true }

/-- Sample interactive session (empty raw command, pty granted, agent
forwarding requested). -/
def agentPtySession : Session :=
  { sampleSession with rawCommand := "", command := [], isPty := true, agentRequested := true }

/-- Sample interactive session without agent forwarding. -/
def ptySession : Session :=
  { sampleSession with rawCommand := "", command := [], isPty := true }

/-- Sample session with an unrecognized subsystem. -/
def badSubsystemSession : Session := { sampleSession with subsystem := "scp" }

/-- Sample host whose inherited environment already carries an
`SSH_AUTH_SOCK` entry. -/
def inheritedSockHost : Host :=
  { sampleHost with environ := [("PATH", "/bin"), ("SSH_AUTH_SOCK", "/inherited.sock")] }

/-- The spawn `handlePty sampleServer sampleHost ptySession` performs. -/
def samplePtySpawn : Spawn :=
  { prog := "/bin/bash", args := [], dir := "/workspace",
    env := [("TERM", "xterm"), ("PATH", "/bin"), ("SHELL", "/bin/bash")] }

/-- The spawn `handlePty sampleServer sampleHost agentPtySession` performs. -/
def sampleAgentPtySpawn : Spawn :=
  { prog := "/bin/bash", args := [], dir := "/workspace",
    env := [("SSH_AUTH_SOCK", "/tmp/agent.sock"), ("TERM", "xterm"),
            ("PATH", "/bin"), ("SHELL", "/bin/bash")] }

/-- The spawn `handleNonPty sampleServer sampleHost agentSession` performs. -/
def sampleNonPtySpawn : Spawn :=
  { prog := "sh", args := ["-c", "ls"], dir := "/workspace",
    env := [("PATH", "/bin"), ("SSH_AUTH_SOCK", "/tmp/agent.sock")] }

/-- The spawn `handlePty sampleServer inheritedSockHost agentPtySession`
performs. -/
def inheritedSockSpawn : Spawn :=
  { prog := "/bin/bash", args := [], dir := "/workspace",
    env := [("SSH_AUTH_SOCK", "/tmp/agent.sock"), ("TERM", "xterm"),
            ("PATH", "/bin"), ("SSH_AUTH_SOCK", "/inherited.sock"),
            ("SHELL", "/bin/bash")] }

/-! Helper lemmas shared by the claim theorems. -/

theorem lastLookup_append (l₁ l₂ : List EnvVar) (name : String) :
    lastLookup (l₁ ++ l₂) name =
      match lastLookup l₂ name with
      | some v => some v
      | none => lastLookup l₁ name := by
  induction l₁ with
  | nil => cases hl : lastLookup l₂ name <;> simp [lastLookup, hl]
  | cons e rest ih =>
    have hstep : lastLookup ((e :: rest) ++ l₂) name =
        match lastLookup (rest ++ l₂) name with
        | some v => some v
        | none => if e.1 = name then some e.2 else none := rfl
    rw [hstep, ih]
    cases hl : lastLookup l₂ name <;> simp [lastLookup]

theorem lastLookup_snoc_self (l : List EnvVar) (name v : String) :
    lastLookup (l ++ [(name, v)]) name = some v := by
  rw [lastLookup_append]
  simp [lastLookup]

/-- Inversion: what spawn `handlePty` performs when it reaches the spawn. -/
theorem handlePty_spawned_eq (s : Server) (h : Host) (sess : Session) (sp : Spawn)
    (hsp : (handlePty s h sess).spawned = some sp) :
    ∃ ae, agentEnvOf sess.agentRequested h.agentListener = some ae ∧
      sp = { prog := h.getShell, args := [], dir := resolveDir h s,
             env := ae ++ [("TERM", sess.ptyTerm)] ++ h.environ ++
                    [("SHELL", h.getShell)] } := by
  unfold handlePty at hsp
  rcases hae : agentEnvOf sess.agentRequested h.agentListener with _ | ae <;>
    rw [hae] at hsp
  · simp at hsp
  · by_cases hp : h.ptyStartOk <;> simp [hp] at hsp
    exact ⟨ae, rfl, hsp.symm.trans (by simp)⟩

/-- Inversion: what spawn and exit status `handleNonPty` produces when it
reaches the wait. -/
theorem handleNonPty_run_eq (s : Server) (h : Host) (sess : Session)
    (hAgent : sess.agentRequested = true → h.agentListener.isSome)
    (hPipe : h.stdinPipeOk = true) (hStart : h.startOk = true) :
    ∃ ae, agentEnvOf sess.agentRequested h.agentListener = some ae ∧
      handleNonPty s h sess =
        { spawned := some
            { prog := "sh"
              args := if sess.command.length > 0 then ["-c", sess.rawCommand] else []
              dir := resolveDir h s
              env := h.environ ++ ae }
          exitStatus := some (if h.waitErr then 127 else 0) } := by
  obtain ⟨ae, hae⟩ : ∃ ae, agentEnvOf sess.agentRequested h.agentListener = some ae := by
    cases hr : sess.agentRequested
    · exact ⟨[], by simp [agentEnvOf, hr]⟩
    · obtain ⟨addr, haddr⟩ := Option.isSome_iff_exists.mp (hAgent hr)
      exact ⟨[("SSH_AUTH_SOCK", addr)], by simp [agentEnvOf, hr, haddr]⟩
  refine ⟨ae, hae, ?_⟩
  unfold handleNonPty
  rw [hae]
  cases hw : h.waitErr <;> simp [hPipe, hStart, hw]

/-- Inversion: the early-return cases of `handleNonPty` when the wait is not
reached. -/
theorem handleNonPty_abort_eq (s : Server) (h : Host) (sess : Session)
    (hAbort : (sess.agentRequested = true ∧ h.agentListener = none) ∨
              h.stdinPipeOk = false ∨ h.startOk = false) :
    handleNonPty s h sess = { spawned := none, exitStatus := none } := by
  unfold handleNonPty
  rcases hAbort with ⟨hr, hl⟩ | hp | hs
  · simp [agentEnvOf, hr, hl]
  · rcases hae : agentEnvOf sess.agentRequested h.agentListener with _ | ae <;>
      simp [hp]
  · rcases hae : agentEnvOf sess.agentRequested h.agentListener with _ | ae <;>
      simp [hs]

/-! Claim theorems. -/

/-- C1: for every non-interactive session whose process has been started
(agent-listener creation, stdin-pipe creation and `cmd.Start` all succeeded),
a failing `cmd.Wait` makes the handler report exit status 127 and a
succeeding wait makes it report exit status 0. -/
theorem c1_wait_exit_status (s : Server) (h : Host) (sess : Session)
    (hAgent : sess.agentRequested = true → h.agentListener.isSome)
    (hPipe : h.stdinPipeOk = true) (hStart : h.startOk = true) :
    (handleNonPty s h sess).exitStatus = some (if h.waitErr then 127 else 0) := by
  obtain ⟨ae, _, heq⟩ := handleNonPty_run_eq s h sess hAgent hPipe hStart
  rw [heq]

/-- Witness for C1 at concrete inputs. -/
theorem c1_wait_exit_status_witness :
    (handleNonPty sampleServer sampleHost sampleSession).exitStatus =
      some (if sampleHost.waitErr then 127 else 0) :=
  c1_wait_exit_status sampleServer sampleHost sampleSession
    (by decide) (by decide) (by decide)

/-- C2 counterexample: with agent forwarding requested and agent-listener
creation failing, neither handler spawns a process — the session does not
continue without forwarding, it is aborted. -/
theorem c2_counterexample :
    (handlePty sampleServer agentFailHost agentPtySession).spawned = none ∧
    (handleNonPty sampleServer agentFailHost agentSession).spawned = none ∧
    (handleNonPty sampleServer agentFailHost agentSession).exitStatus = none := by
  decide

/-- C2 amended: when agent forwarding is requested and creating the
AgentListener fails, the handler logs the error and returns immediately: no
process is spawned in either path and the non-interactive path reports no
exit status — the whole session is abandoned, not just the forwarding
setup. -/
theorem c2_agent_fail_aborts (s : Server) (h : Host) (sess : Session)
    (hReq : sess.agentRequested = true) (hFail : h.agentListener = none) :
    (handlePty s h sess).spawned = none ∧
    (handleNonPty s h sess).spawned = none ∧
    (handleNonPty s h sess).exitStatus = none := by
  have hae : agentEnvOf sess.agentRequested h.agentListener = none := by
    simp [agentEnvOf, hReq, hFail]
  have hn := handleNonPty_abort_eq s h sess (Or.inl ⟨hReq, hFail⟩)
  refine ⟨?_, ?_, ?_⟩
  · unfold handlePty
    rw [hae]
  · rw [hn]
  · rw [hn]

/-- Witness for C2's amended theorem at concrete inputs. -/
theorem c2_agent_fail_aborts_witness :
    (handlePty sampleServer agentFailHost agentSession).spawned = none ∧
    (handleNonPty sampleServer agentFailHost agentSession).spawned = none ∧
    (handleNonPty sampleServer agentFailHost agentSession).exitStatus = none :=
  c2_agent_fail_aborts sampleServer agentFailHost agentSession (by decide) (by decide)

/-- C3 counterexample: when `cmd.Start()` fails, the handler reports no exit
status at all — in particular not 127. -/
theorem c3_counterexample :
    (handleNonPty sampleServer startFailHost sampleSession).exitStatus = none ∧
    ¬ (handleNonPty sampleServer startFailHost sampleSession).exitStatus = some 127 := by
  decide

/-- C3 amended: a command that fails to start makes the handler log and
return without reporting any exit status; exit status 127 is observed exactly
when the command started and its wait failed. -/
theorem c3_start_fail_no_status (s : Server) (h : Host) (sess : Session)
    (hAgent : sess.agentRequested = true → h.agentListener.isSome)
    (hPipe : h.stdinPipeOk = true) :
    (h.startOk = false → (handleNonPty s h sess).exitStatus = none) ∧
    (h.startOk = true →
      ((handleNonPty s h sess).exitStatus = some 127 ↔ h.waitErr = true)) := by
  constructor
  · intro hs'
    rw [handleNonPty_abort_eq s h sess (Or.inr (Or.inr hs'))]
  · intro hs'
    obtain ⟨ae, _, heq⟩ := handleNonPty_run_eq s h sess hAgent hPipe hs'
    rw [heq]
    cases hw : h.waitErr <;> simp

/-- Witness for C3's amended theorem at concrete inputs. -/
theorem c3_start_fail_no_status_witness :
    (handleNonPty sampleServer startFailHost sampleSession).exitStatus = none :=
  (c3_start_fail_no_status sampleServer startFailHost sampleSession
    (by decide) (by decide)).1 (by decide)

/-- C4 counterexample: when the session→stdin copy returns an error, the
goroutine returns before `stdinPipe.Close()` — the pipe is not closed. -/
theorem c4_counterexample : stdinCopyClosesPipe true = false := by decide

/-- C4 amended: the stdin-copy goroutine closes the stdin pipe exactly when
the copy ended without error (normal end-of-stream); on a copy error it logs
and returns with the pipe left open. -/
theorem c4_close_only_on_success (e : Bool) :
    stdinCopyClosesPipe e = true ↔ e = false := by
  cases e <;> simp [stdinCopyClosesPipe]

theorem lastLookup_append_none (l₁ l₂ : List EnvVar) (name : String)
    (h2 : lastLookup l₂ name = none) :
    lastLookup (l₁ ++ l₂) name = lastLookup l₁ name := by
  rw [lastLookup_append, h2]

theorem lastLookup_append_some (l₁ l₂ : List EnvVar) (name v : String)
    (h2 : lastLookup l₂ name = some v) :
    lastLookup (l₁ ++ l₂) name = some v := by
  rw [lastLookup_append, h2]

/-- Inversion: the spawn `handleNonPty` performs when it reaches a successful
`cmd.Start`. -/
theorem handleNonPty_spawned_eq (s : Server) (h : Host) (sess : Session) (sp : Spawn)
    (hsp : (handleNonPty s h sess).spawned = some sp) :
    ∃ ae, agentEnvOf sess.agentRequested h.agentListener = some ae ∧
      sp = { prog := "sh"
             args := if sess.command.length > 0 then ["-c", sess.rawCommand] else []
             dir := resolveDir h s
             env := h.environ ++ ae } := by
  unfold handleNonPty at hsp
  rcases hae : agentEnvOf sess.agentRequested h.agentListener with _ | ae <;>
    rw [hae] at hsp
  · simp at hsp
  · by_cases hp : h.stdinPipeOk <;> simp [hp] at hsp
    by_cases hs' : h.startOk <;> simp [hs'] at hsp
    cases hw : h.waitErr <;> simp [hw] at hsp <;> exact ⟨ae, rfl, hsp.symm⟩

/-- C5: in both handlers the working directory of the spawn is the configured
directory when it exists on the host filesystem and the fallback default
directory otherwise; the statement is quantified over every host state `h`,
so the `os.Stat` existence check is re-evaluated from the filesystem at each
handler invocation, never cached across sessions. -/
theorem c5_workdir (s : Server) (h : Host) (sess : Session) :
    (∀ sp, (handlePty s h sess).spawned = some sp →
      sp.dir = if h.dirExists s.WorkspaceDir then s.WorkspaceDir
               else s.DefaultWorkspaceDir) ∧
    (∀ sp, (handleNonPty s h sess).spawned = some sp →
      sp.dir = if h.dirExists s.WorkspaceDir then s.WorkspaceDir
               else s.DefaultWorkspaceDir) := by
  constructor
  · intro sp hsp
    obtain ⟨ae, _, heq⟩ := handlePty_spawned_eq s h sess sp hsp
    rw [heq]
    rfl
  · intro sp hsp
    obtain ⟨ae, _, heq⟩ := handleNonPty_spawned_eq s h sess sp hsp
    rw [heq]
    rfl

/-- Witness for C5 at concrete inputs. -/
theorem c5_workdir_witness :
    samplePtySpawn.dir =
      (if sampleHost.dirExists sampleServer.WorkspaceDir then sampleServer.WorkspaceDir
       else sampleServer.DefaultWorkspaceDir) :=
  (c5_workdir sampleServer sampleHost ptySession).1 samplePtySpawn (by decide)

/-- C6 counterexample: with agent forwarding set up, the interactive spawn's
environment starts with the `SSH_AUTH_SOCK` entry, so it is NOT the claimed
list with the TERM entry first. -/
theorem c6_counterexample :
    (handlePty sampleServer sampleHost agentPtySession).spawned =
      some sampleAgentPtySpawn ∧
    ¬ (handlePty sampleServer sampleHost agentPtySession).spawned =
      some { prog := "/bin/bash", args := [], dir := "/workspace",
             env := [("TERM", "xterm")] ++ sampleHost.environ ++
                    [("SHELL", "/bin/bash")] } := by
  decide

/-- C6 amended: the interactive spawn's environment is the agent-forwarding
entry (when agent forwarding was set up), then `TERM`, then the inherited
host environment, then `SHELL` last, in exactly that order; hence under
last-assignment-wins semantics the explicit `SHELL` value is never
overridden. `TERM` is first only when no agent entry precedes it. -/
theorem c6_env_order (s : Server) (h : Host) (sess : Session) (sp : Spawn)
    (hsp : (handlePty s h sess).spawned = some sp) :
    sp.env = (agentEnvOf sess.agentRequested h.agentListener).getD [] ++
             [("TERM", sess.ptyTerm)] ++ h.environ ++ [("SHELL", h.getShell)] ∧
    lastLookup sp.env "SHELL" = some h.getShell := by
  obtain ⟨ae, hae, heq⟩ := handlePty_spawned_eq s h sess sp hsp
  subst heq
  refine ⟨by rw [hae]; rfl, ?_⟩
  exact lastLookup_snoc_self ((ae ++ [("TERM", sess.ptyTerm)]) ++ h.environ) _ _

/-- Witness for C6's amended theorem at concrete inputs. -/
theorem c6_env_order_witness :
    sampleAgentPtySpawn.env =
      (agentEnvOf agentPtySession.agentRequested sampleHost.agentListener).getD [] ++
      [("TERM", agentPtySession.ptyTerm)] ++ sampleHost.environ ++
      [("SHELL", sampleHost.getShell)] ∧
    lastLookup sampleAgentPtySpawn.env "SHELL" = some sampleHost.getShell :=
  c6_env_order sampleServer sampleHost agentPtySession sampleAgentPtySpawn (by decide)

/-- C7: the dispatcher takes the interactive (pty) path exactly when the
subsystem is empty, a pty was requested and the raw command is empty; every
other empty-subsystem session takes the non-interactive path; an unrecognized
subsystem makes the dispatcher report failure (exit status 1) and end the
session with no process handler invoked. -/
theorem c7_dispatch (sess : Session) :
    ((dispatch sess).1 = Route.pty ↔
      sess.subsystem = "" ∧ sess.isPty = true ∧ sess.rawCommand = "") ∧
    (sess.subsystem = "" → ¬(sess.rawCommand = "" ∧ sess.isPty = true) →
      (dispatch sess).1 = Route.nonPty) ∧
    (sess.subsystem ≠ "" → sess.subsystem ≠ "sftp" →
      (dispatch sess).1 = Route.rejected ∧ (dispatch sess).2 = some 1) := by
  unfold dispatch
  by_cases h0 : sess.subsystem = ""
  · by_cases hc : sess.rawCommand = "" <;> by_cases hp : sess.isPty = true <;>
      simp [h0, hc, hp]
  · by_cases hs' : sess.subsystem = "sftp" <;> simp [h0, hs']

/-- Witness for C7 at concrete inputs. -/
theorem c7_dispatch_witness :
    (dispatch badSubsystemSession).1 = Route.rejected ∧
    (dispatch badSubsystemSession).2 = some 1 :=
  (c7_dispatch badSubsystemSession).2.2 (by decide) (by decide)

/-- C8: the non-interactive handler always spawns the literal program `"sh"`
(whatever `common.GetShell()` returns for the interactive path), and its
environment is exactly the inherited host environment followed, when agent
forwarding was set up, by the single `SSH_AUTH_SOCK` entry — the handler adds
no `TERM` or `SHELL` entry. -/
theorem c8_nonpty_sh_env (s : Server) (h : Host) (sess : Session) (sp : Spawn)
    (hsp : (handleNonPty s h sess).spawned = some sp) :
    sp.prog = "sh" ∧
    sp.env = h.environ ++ (agentEnvOf sess.agentRequested h.agentListener).getD [] ∧
    ∀ e ∈ (agentEnvOf sess.agentRequested h.agentListener).getD [],
      e.1 = "SSH_AUTH_SOCK" := by
  obtain ⟨ae, hae, heq⟩ := handleNonPty_spawned_eq s h sess sp hsp
  subst heq
  refine ⟨rfl, by rw [hae]; rfl, ?_⟩
  rw [hae]
  intro e he
  unfold agentEnvOf at hae
  cases hr : sess.agentRequested <;> rw [hr] at hae
  · simp at hae
    subst hae
    simp at he
  · rcases hl : h.agentListener with _ | addr <;> rw [hl] at hae <;> simp at hae
    subst hae
    simp at he
    rw [he]

/-- Witness for C8 at concrete inputs. -/
theorem c8_nonpty_sh_env_witness :
    sampleNonPtySpawn.prog = "sh" ∧
    sampleNonPtySpawn.env =
      sampleHost.environ ++
      (agentEnvOf agentSession.agentRequested sampleHost.agentListener).getD [] ∧
    ∀ e ∈ (agentEnvOf agentSession.agentRequested sampleHost.agentListener).getD [],
      e.1 = "SSH_AUTH_SOCK" :=
  c8_nonpty_sh_env sampleServer sampleHost agentSession sampleNonPtySpawn (by decide)

/-- C9: in the interactive path with agent forwarding granted, the
`SSH_AUTH_SOCK` entry carrying the agent listener's address is the FIRST
environment entry — before the inherited host environment — so under
last-assignment-wins semantics an `SSH_AUTH_SOCK` value present in the
inherited environment overrides the listener's address. -/
theorem c9_agent_sock_first (s : Server) (h : Host) (sess : Session) (sp : Spawn)
    (addr : String)
    (hReq : sess.agentRequested = true) (hL : h.agentListener = some addr)
    (hsp : (handlePty s h sess).spawned = some sp) :
    sp.env.head? = some ("SSH_AUTH_SOCK", addr) ∧
    (∀ v, lastLookup h.environ "SSH_AUTH_SOCK" = some v →
      lastLookup sp.env "SSH_AUTH_SOCK" = some v) := by
  obtain ⟨ae, hae, heq⟩ := handlePty_spawned_eq s h sess sp hsp
  simp [agentEnvOf, hReq, hL] at hae
  subst hae
  subst heq
  refine ⟨rfl, ?_⟩
  intro v hv
  show lastLookup ((([("SSH_AUTH_SOCK", addr)] ++ [("TERM", sess.ptyTerm)]) ++
      h.environ) ++ [("SHELL", h.getShell)]) "SSH_AUTH_SOCK" = some v
  rw [lastLookup_append_none _ _ _ (by simp [lastLookup])]
  exact lastLookup_append_some _ _ _ _ hv

/-- Witness for C9 at concrete inputs: the inherited `/inherited.sock` value
wins over the listener address `/tmp/agent.sock`. -/
theorem c9_agent_sock_first_witness :
    inheritedSockSpawn.env.head? = some ("SSH_AUTH_SOCK", "/tmp/agent.sock") ∧
    lastLookup inheritedSockSpawn.env "SSH_AUTH_SOCK" = some "/inherited.sock" := by
  have h := c9_agent_sock_first sampleServer inheritedSockHost agentPtySession
      inheritedSockSpawn "/tmp/agent.sock" (by decide) (by decide) (by decide)
  exact ⟨h.1, h.2 "/inherited.sock" (by decide)⟩

/-- C10: a session whose subsystem is neither empty nor `"sftp"` makes the
dispatcher report exit status exactly 1 before returning. -/
theorem c10_unrecognized_exit_one (sess : Session)
    (h1 : sess.subsystem ≠ "") (h2 : sess.subsystem ≠ "sftp") :
    (dispatch sess).2 = some 1 := by
  unfold dispatch
  simp [h1, h2]

/-- Witness for C10 at concrete inputs. -/
theorem c10_unrecognized_exit_one_witness :
    (dispatch badSubsystemSession).2 = some 1 :=
  c10_unrecognized_exit_one badSubsystemSession (by decide) (by decide)
